import Mathlib

/-!
# IVideoResampler: the gated factory and capability query

Verification development for
`java/xuggle-xuggler/csrc/com/xuggle/xuggler/IVideoResampler.cpp`.

The file contains two static member functions, `IVideoResampler::make` and
`IVideoResampler::isSupported`.  Both branch on the preprocessor symbol
`VS_ENABLE_GPL`; `make` calls two collaborators that live in other
translation units (`Global::init` and `VideoResampler::make`).

Embedding:

* a C++ computation is a function from the process state to an outcome
  (normal return or thrown exception) together with the process state it
  leaves behind; side effects that happened before a `throw` persist;
* the collaborators and the preprocessor symbol are parameters;
* every call to a collaborator is recorded in a ghost call log, so that
  "is invoked", "exactly once" and "before" can be stated;
* `int32_t` arguments are `Int` (the file performs no arithmetic on them,
  they are only passed on), a nullable pointer is an `Option`.
-/

namespace com.xuggle.xuggler

/-! ## Data model -/

/-- C++ exceptions as seen at this layer: `std::invalid_argument` carrying its
`what()` text, or any other exception a collaborator may throw. -/
inductive CppException where
  | invalid_argument (what : String)
  | other (what : String)
  deriving DecidableEq, Repr

/-- Calls to collaborators, with their actual arguments (ghost log entries). -/
inductive Call (φ : Type) where
  | Global_init
  | VideoResampler_make (outputWidth outputHeight : Int) (outputFmt : φ)
      (inputWidth inputHeight : Int) (inputFmt : φ)
  deriving DecidableEq, Repr

/-- Process state: the state owned by `Global` (what `Global::init`
initialises), the rest of the process state, and the ghost log of the
collaborator calls made so far (oldest first). -/
structure Process (ι ω φ : Type) where
  global : ι
  heap : ω
  calls : List (Call φ)
  deriving DecidableEq, Repr

/-- Outcome of a C++ call: a returned value or a thrown exception. -/
abbrev Outcome (α : Type) := Except CppException α

/-- C++ computation over the process state. -/
def Cpp (ι ω φ α : Type) := Process ι ω φ → Outcome α × Process ι ω φ

/-- Normal return. -/
def Cpp.ret {ι ω φ α : Type} (a : α) : Cpp ι ω φ α :=
  fun p => (Except.ok a, p)

/-- The C++ `throw` statement: the state reached so far is kept. -/
def Cpp.raise {ι ω φ α : Type} (e : CppException) : Cpp ι ω φ α :=
  fun p => (Except.error e, p)

/-- Sequencing of statements: an exception thrown by the first one propagates
and the rest is skipped. -/
def Cpp.seq {ι ω φ α β : Type} (m : Cpp ι ω φ α) (k : α → Cpp ι ω φ β) :
    Cpp ι ω φ β :=
  fun p =>
    match m p with
    | (Except.ok a, q) => k a q
    | (Except.error e, q) => (Except.error e, q)

/-- Collaborators of `IVideoResampler.cpp` that are defined elsewhere:
`Global::init()` (a `void` function acting on the state owned by `Global`) and
the concrete factory `VideoResampler::make` (returns a possibly null pointer;
may read and write the whole process state).  Either may throw.  Nothing is
assumed about how the state is divided: `ι` may be the whole process state. -/
structure Collaborators (ι ω φ ρ : Type) where
  Global_init : ι → Outcome Unit × ι
  VideoResampler_make :
    Int → Int → φ → Int → Int → φ → ι → ω → Outcome (Option ρ) × ι × ω

/-- A call `Global::init();`. -/
def Global.init {ι ω φ ρ : Type} (env : Collaborators ι ω φ ρ) : Cpp ι ω φ Unit :=
  fun p =>
    ((env.Global_init p.global).1,
     { global := (env.Global_init p.global).2
       heap := p.heap
       calls := p.calls ++ [Call.Global_init] })

/-- A call `VideoResampler::make(outputWidth, outputHeight, outputFmt,
inputWidth, inputHeight, inputFmt)`. -/
def VideoResampler.make {ι ω φ ρ : Type} (env : Collaborators ι ω φ ρ)
    (outputWidth outputHeight : Int) (outputFmt : φ)
    (inputWidth inputHeight : Int) (inputFmt : φ) : Cpp ι ω φ (Option ρ) :=
  fun p =>
    let r := env.VideoResampler_make outputWidth outputHeight outputFmt
      inputWidth inputHeight inputFmt p.global p.heap
    (r.1,
     { global := r.2.1
       heap := r.2.2
       calls := p.calls ++ [Call.VideoResampler_make outputWidth outputHeight
         outputFmt inputWidth inputHeight inputFmt] })

/-! ## The two functions of `IVideoResampler.cpp` -/

/-- The exception thrown by `IVideoResampler::make` in a build without
`VS_ENABLE_GPL`:
`std::invalid_argument("IVideoResampler not supported in this build")`. -/
def notSupported : CppException :=
  CppException.invalid_argument "IVideoResampler not supported in this build"

/-- `IVideoResampler::make`.  `VS_ENABLE_GPL` is `true` when the preprocessor
symbol is defined. -/
def IVideoResampler.make {ι ω φ ρ : Type} (env : Collaborators ι ω φ ρ)
    (VS_ENABLE_GPL : Bool)
    (outputWidth outputHeight : Int) (outputFmt : φ)
    (inputWidth inputHeight : Int) (inputFmt : φ) : Cpp ι ω φ (Option ρ) :=
  Cpp.seq (Global.init env) fun _ =>
    if VS_ENABLE_GPL then
      VideoResampler.make env outputWidth outputHeight outputFmt
        inputWidth inputHeight inputFmt
    else
      Cpp.raise notSupported

/-- `IVideoResampler::isSupported`.  The argument is ignored
(`(void)aFeature;`). -/
def IVideoResampler.isSupported {ι ω φ Feature : Type} (VS_ENABLE_GPL : Bool)
    (_aFeature : Feature) : Cpp ι ω φ Bool :=
  if VS_ENABLE_GPL then Cpp.ret true else Cpp.ret false

/-! ## Vocabulary used by the statements -/

/-- The computation returned normally (did not throw). -/
def Outcome.returned {α : Type} : Outcome α → Bool
  | Except.ok _ => true
  | Except.error _ => false

/-- The computation returned a null pointer. -/
def Outcome.returnedNull {ρ : Type} : Outcome (Option ρ) → Bool
  | Except.ok none => true
  | _ => false

/-- The computation returned a non-null pointer. -/
def Outcome.returnedHandle {ρ : Type} : Outcome (Option ρ) → Bool
  | Except.ok (some _) => true
  | _ => false

/-- The state in which `IVideoResampler::make` continues after its call to
`Global::init` has returned. -/
def afterInit {ι ω φ ρ : Type} (env : Collaborators ι ω φ ρ) (p : Process ι ω φ) :
    Process ι ω φ :=
  (Global.init env p).2

/-- A caller making several calls one after the other, catching whatever each
one throws: the outcomes in call order and the final process state. -/
def callInSequence {ι ω φ α : Type} :
    List (Cpp ι ω φ α) → Process ι ω φ → List (Outcome α) × Process ι ω φ
  | [], p => ([], p)
  | m :: ms, p =>
    ((m p).1 :: (callInSequence ms (m p).2).1, (callInSequence ms (m p).2).2)

/-- Number of `Global::init` entries in a call log. -/
def initCount {φ : Type} : List (Call φ) → Nat
  | [] => 0
  | Call.Global_init :: cs => initCount cs + 1
  | Call.VideoResampler_make _ _ _ _ _ _ :: cs => initCount cs

/-! ## Example collaborators, used to instantiate the theorems -/

/-- An initialisation that sets a flag on first use and does nothing later. -/
def exInit : Bool → Outcome Unit × Bool :=
  fun _ => (Except.ok (), true)

/-- A factory in the style of a validating implementation: a null pointer for
a non-positive dimension, otherwise a fresh handle numbered by the heap
counter, which it increments. -/
def exFactory : Int → Int → Nat → Int → Int → Nat → Bool → Nat →
    Outcome (Option Nat) × Bool × Nat :=
  fun ow oh _ iw ih _ g h =>
    if ow ≤ 0 ∨ oh ≤ 0 ∨ iw ≤ 0 ∨ ih ≤ 0 then (Except.ok none, g, h)
    else (Except.ok (some h), g, h + 1)

/-- Example environment. -/
def exEnv : Collaborators Bool Nat Nat Nat :=
  { Global_init := exInit, VideoResampler_make := exFactory }

/-- Example initial process state: nothing initialised, nothing called. -/
def exStart : Process Bool Nat Nat :=
  { global := false, heap := 0, calls := [] }

/-- A factory whose construction always fails quietly: it reports the failure
by returning a null pointer. -/
def exNullFactory : Int → Int → Nat → Int → Int → Nat → Bool → Nat →
    Outcome (Option Nat) × Bool × Nat :=
  fun _ _ _ _ _ _ g h => (Except.ok none, g, h)

/-- Example environment with the quietly failing factory. -/
def exNullEnv : Collaborators Bool Nat Nat Nat :=
  { Global_init := exInit, VideoResampler_make := exNullFactory }

/-- The six arguments of one `IVideoResampler::make` call, in declaration
order. -/
structure MakeArgs (φ : Type) where
  outputWidth : Int
  outputHeight : Int
  outputFmt : φ
  inputWidth : Int
  inputHeight : Int
  inputFmt : φ

/-- One `IVideoResampler::make` call with the given argument record. -/
def makeWith {ι ω φ ρ : Type} (env : Collaborators ι ω φ ρ) (VS_ENABLE_GPL : Bool)
    (a : MakeArgs φ) : Cpp ι ω φ (Option ρ) :=
  IVideoResampler.make env VS_ENABLE_GPL a.outputWidth a.outputHeight a.outputFmt
    a.inputWidth a.inputHeight a.inputFmt

/-- Example argument record: 640x480 from 1280x720. -/
def exArgs : MakeArgs Nat :=
  { outputWidth := 640, outputHeight := 480, outputFmt := 7,
    inputWidth := 1280, inputHeight := 720, inputFmt := 7 }

/-- Example argument record with degenerate dimensions. -/
def exBadArgs : MakeArgs Nat :=
  { outputWidth := 0, outputHeight := -1, outputFmt := 7,
    inputWidth := 1280, inputHeight := 720, inputFmt := 3 }

/-! ## Basic facts about the embedding -/

theorem make_of_init_ok {ι ω φ ρ : Type} (env : Collaborators ι ω φ ρ)
    (gpl : Bool) (ow oh : Int) (ofmt : φ) (iw ih : Int) (ifmt : φ)
    (p : Process ι ω φ) (h : (env.Global_init p.global).1 = Except.ok ()) :
    IVideoResampler.make env gpl ow oh ofmt iw ih ifmt p =
      if gpl then VideoResampler.make env ow oh ofmt iw ih ifmt (afterInit env p)
      else (Except.error notSupported, afterInit env p) := by
  unfold IVideoResampler.make Cpp.seq afterInit
  have h1 : Global.init env p = (Except.ok (), (Global.init env p).2) := by
    apply Prod.ext
    · simpa [Global.init] using h
    · rfl
  rw [h1]
  cases gpl <;> simp [Cpp.raise]

theorem make_of_init_error {ι ω φ ρ : Type} (env : Collaborators ι ω φ ρ)
    (gpl : Bool) (ow oh : Int) (ofmt : φ) (iw ih : Int) (ifmt : φ)
    (p : Process ι ω φ) (e : CppException)
    (h : (env.Global_init p.global).1 = Except.error e) :
    IVideoResampler.make env gpl ow oh ofmt iw ih ifmt p =
      (Except.error e, afterInit env p) := by
  unfold IVideoResampler.make Cpp.seq afterInit
  have h1 : Global.init env p = (Except.error e, (Global.init env p).2) := by
    apply Prod.ext
    · simpa [Global.init] using h
    · rfl
  rw [h1]

theorem make_global_of_frame {ι ω φ ρ : Type} (env : Collaborators ι ω φ ρ)
    (gpl : Bool) (a : MakeArgs φ) (p : Process ι ω φ)
    (hFrame : gpl = true → ∀ (ow oh : Int) (ofmt : φ) (iw ih : Int) (ifmt : φ)
      (g : ι) (h : ω), (env.VideoResampler_make ow oh ofmt iw ih ifmt g h).2.1 = g) :
    (makeWith env gpl a p).2.global = (env.Global_init p.global).2 := by
  unfold makeWith
  rcases hr : (env.Global_init p.global).1 with e | u
  · rw [make_of_init_error env gpl _ _ _ _ _ _ p e hr]; rfl
  · rw [make_of_init_ok env gpl _ _ _ _ _ _ p hr]
    cases gpl
    · rfl
    · simp only [if_true, VideoResampler.make]
      exact hFrame rfl _ _ _ _ _ _ _ _

theorem callInSequence_global {ι ω φ ρ : Type} (env : Collaborators ι ω φ ρ)
    (gpl : Bool)
    (hFrame : gpl = true → ∀ (ow oh : Int) (ofmt : φ) (iw ih : Int) (ifmt : φ)
      (g : ι) (h : ω), (env.VideoResampler_make ow oh ofmt iw ih ifmt g h).2.1 = g)
    (as : List (MakeArgs φ)) :
    ∀ q : Process ι ω φ, (env.Global_init q.global).2 = q.global →
      (callInSequence (as.map (makeWith env gpl)) q).2.global = q.global := by
  induction as with
  | nil => intro q _; rfl
  | cons a as ih =>
    intro q hq
    have h1 : (makeWith env gpl a q).2.global = q.global := by
      rw [make_global_of_frame env gpl a q hFrame, hq]
    simp only [List.map_cons, callInSequence]
    rw [ih _ (by rw [h1]; exact hq), h1]

theorem callInSequence_disabled {ι ω φ ρ : Type} (env : Collaborators ι ω φ ρ)
    (as : List (MakeArgs φ)) :
    ∀ q : Process ι ω φ,
      env.Global_init q.global = (Except.ok (), q.global) →
      (callInSequence (as.map (makeWith (ρ := ρ) env false)) q).1
          = List.replicate as.length (Except.error notSupported) ∧
      (callInSequence (as.map (makeWith (ρ := ρ) env false)) q).2.heap = q.heap := by
  induction as with
  | nil => intro q _; exact ⟨rfl, rfl⟩
  | cons a as ih =>
    intro q hq
    have hok : (env.Global_init q.global).1 = Except.ok () := by rw [hq]
    have h1 : makeWith (ρ := ρ) env false a q
        = (Except.error notSupported, afterInit env q) := by
      unfold makeWith
      rw [make_of_init_ok env false _ _ _ _ _ _ q hok]; rfl
    have h2 : (afterInit env q).global = q.global := by
      simp [afterInit, Global.init, hq]
    have h3 : (afterInit env q).heap = q.heap := rfl
    simp only [List.map_cons, callInSequence, h1, List.length_cons,
      List.replicate_succ]
    have := ih (afterInit env q) (by rw [h2]; exact hq)
    exact ⟨by rw [this.1], by rw [this.2, h3]⟩

/-! ## Claims -/

/-- C1: in a build without `VS_ENABLE_GPL`, for every choice of the six
arguments (zero and negative dimensions included) and every process state,
`IVideoResampler::make` never returns (so no handle reaches the caller), and
once its call to `Global::init` has returned it throws exactly the
not-supported error, in the state `Global::init` left. -/
theorem C1_make_disabled_fails {ι ω φ ρ : Type} (env : Collaborators ι ω φ ρ)
    (outputWidth outputHeight : Int) (outputFmt : φ)
    (inputWidth inputHeight : Int) (inputFmt : φ) (p : Process ι ω φ) :
    Outcome.returned (IVideoResampler.make env false outputWidth outputHeight
        outputFmt inputWidth inputHeight inputFmt p).1 = false ∧
    ((env.Global_init p.global).1 = Except.ok () →
      IVideoResampler.make env false outputWidth outputHeight outputFmt
        inputWidth inputHeight inputFmt p
        = (Except.error notSupported, afterInit env p)) := by
  constructor
  · rcases hr : (env.Global_init p.global).1 with e | u
    · rw [make_of_init_error env false _ _ _ _ _ _ p e hr]; rfl
    · rw [make_of_init_ok env false _ _ _ _ _ _ p hr]; rfl
  · intro h
    rw [make_of_init_ok env false _ _ _ _ _ _ p h]; rfl

/-- Witness for C1: a disabled build asked for a 0 x -480 output. -/
theorem C1_make_disabled_fails_witness :
    (exEnv.Global_init exStart.global).1 = Except.ok () ∧
    IVideoResampler.make exEnv false 0 (-480) 7 1280 720 7 exStart
      = (Except.error notSupported, afterInit exEnv exStart) :=
  ⟨rfl, (C1_make_disabled_fails exEnv 0 (-480) 7 1280 720 7 exStart).2 rfl⟩

/-- C2: for every `Feature` value, `IVideoResampler::isSupported` returns
exactly the build flag (`false` without `VS_ENABLE_GPL`, `true` with it), so
any two feature values get the same answer in the same build. -/
theorem C2_isSupported_is_build_flag {ι ω φ Feature : Type}
    (p : Process ι ω φ) :
    (∀ f : Feature,
      (IVideoResampler.isSupported false f p).1 = Except.ok false ∧
      (IVideoResampler.isSupported true f p).1 = Except.ok true) ∧
    (∀ (gpl : Bool) (f : Feature),
      (IVideoResampler.isSupported gpl f p).1 = Except.ok gpl) ∧
    (∀ (gpl : Bool) (f1 f2 : Feature),
      IVideoResampler.isSupported gpl f1 p = IVideoResampler.isSupported gpl f2 p) := by
  refine ⟨fun f => ⟨rfl, rfl⟩, fun gpl f => ?_, fun gpl f1 f2 => rfl⟩
  cases gpl <;> rfl

/-- C3: in a build with `VS_ENABLE_GPL`, once `Global::init` has returned,
`IVideoResampler::make` yields exactly what the concrete factory
`VideoResampler::make` yields for the same six arguments in the same order
(outputWidth, outputHeight, outputFmt, inputWidth, inputHeight, inputFmt):
the same returned pointer or thrown exception and the same process state,
with exactly one factory call recorded after the initialisation.  The facade
adds no failure of its own: the only other way the call can end is with the
exception `Global::init` itself threw. -/
theorem C3_make_enabled_delegates {ι ω φ ρ : Type} (env : Collaborators ι ω φ ρ)
    (outputWidth outputHeight : Int) (outputFmt : φ)
    (inputWidth inputHeight : Int) (inputFmt : φ) (p : Process ι ω φ) :
    ((env.Global_init p.global).1 = Except.ok () →
      IVideoResampler.make env true outputWidth outputHeight outputFmt
          inputWidth inputHeight inputFmt p
        = VideoResampler.make env outputWidth outputHeight outputFmt
            inputWidth inputHeight inputFmt (afterInit env p) ∧
      IVideoResampler.make env true outputWidth outputHeight outputFmt
          inputWidth inputHeight inputFmt p
        = ((env.VideoResampler_make outputWidth outputHeight outputFmt inputWidth
              inputHeight inputFmt (env.Global_init p.global).2 p.heap).1,
           { global := (env.VideoResampler_make outputWidth outputHeight outputFmt
                inputWidth inputHeight inputFmt (env.Global_init p.global).2 p.heap).2.1
             heap := (env.VideoResampler_make outputWidth outputHeight outputFmt
                inputWidth inputHeight inputFmt (env.Global_init p.global).2 p.heap).2.2
             calls := p.calls ++ [Call.Global_init,
                Call.VideoResampler_make outputWidth outputHeight outputFmt
                  inputWidth inputHeight inputFmt] })) ∧
    (∀ e : CppException, (env.Global_init p.global).1 = Except.error e →
      IVideoResampler.make env true outputWidth outputHeight outputFmt
          inputWidth inputHeight inputFmt p
        = (Except.error e, afterInit env p)) := by
  refine ⟨fun hinit => ?_, fun e he => make_of_init_error env true _ _ _ _ _ _ p e he⟩
  rw [make_of_init_ok env true _ _ _ _ _ _ p hinit]
  refine ⟨by simp, ?_⟩
  simp [VideoResampler.make, afterInit, Global.init]

/-- Witness for C3: the example factory is reached with 640x480 from 1280x720
and its fresh handle comes back unchanged. -/
theorem C3_make_enabled_delegates_witness :
    (exEnv.Global_init exStart.global).1 = Except.ok () ∧
    IVideoResampler.make exEnv true 640 480 7 1280 720 7 exStart
      = VideoResampler.make exEnv 640 480 7 1280 720 7 (afterInit exEnv exStart) ∧
    (IVideoResampler.make exEnv true 640 480 7 1280 720 7 exStart).1
      = Except.ok (some 0) :=
  ⟨rfl, ((C3_make_enabled_delegates exEnv 640 480 7 1280 720 7 exStart).1 rfl).1, rfl⟩

/-- C4, refutation of the claim as stated: in an enabled build the facade hands
a null pointer to the caller when the concrete factory returns one.  With the
validating example factory and a zero output width, and with the quietly
failing factory on the scenario arguments 640x480 from 1280x720, the call
returns normally, the returned pointer is null, and no error is raised. -/
theorem C4_counterexample :
    Outcome.returnedNull
      (IVideoResampler.make exEnv true 0 480 7 1280 720 7 exStart).1 = true ∧
    Outcome.returnedHandle
      (IVideoResampler.make exEnv true 0 480 7 1280 720 7 exStart).1 = false ∧
    Outcome.returned
      (IVideoResampler.make exEnv true 0 480 7 1280 720 7 exStart).1 = true ∧
    (IVideoResampler.make exNullEnv true 640 480 7 1280 720 7 exStart).1
      = Except.ok none := by
  refine ⟨?_, ?_, ?_, ?_⟩ <;> rfl

/-- C4, amended: `IVideoResampler::make` returns a null pointer exactly when
the build has `VS_ENABLE_GPL`, `Global::init` returned, and the concrete
factory itself returned a null pointer for the same arguments; likewise it
returns a non-null handle exactly when the build has `VS_ENABLE_GPL`,
`Global::init` returned, and the concrete factory returned a non-null
handle.  In particular a build without `VS_ENABLE_GPL` never returns
anything. -/
theorem C4_make_null_iff_factory_null {ι ω φ ρ : Type}
    (env : Collaborators ι ω φ ρ) (gpl : Bool)
    (outputWidth outputHeight : Int) (outputFmt : φ)
    (inputWidth inputHeight : Int) (inputFmt : φ) (p : Process ι ω φ) :
    (Outcome.returnedNull (IVideoResampler.make env gpl outputWidth outputHeight
        outputFmt inputWidth inputHeight inputFmt p).1 = true ↔
      (gpl = true ∧ (env.Global_init p.global).1 = Except.ok () ∧
        Outcome.returnedNull (env.VideoResampler_make outputWidth outputHeight
          outputFmt inputWidth inputHeight inputFmt
          (env.Global_init p.global).2 p.heap).1 = true)) ∧
    (Outcome.returnedHandle (IVideoResampler.make env gpl outputWidth outputHeight
        outputFmt inputWidth inputHeight inputFmt p).1 = true ↔
      (gpl = true ∧ (env.Global_init p.global).1 = Except.ok () ∧
        Outcome.returnedHandle (env.VideoResampler_make outputWidth outputHeight
          outputFmt inputWidth inputHeight inputFmt
          (env.Global_init p.global).2 p.heap).1 = true)) ∧
    (gpl = false →
      Outcome.returned (IVideoResampler.make env gpl outputWidth outputHeight
        outputFmt inputWidth inputHeight inputFmt p).1 = false) := by
  rcases hr : (env.Global_init p.global).1 with e | u
  · rw [make_of_init_error env gpl _ _ _ _ _ _ p e hr]
    simp [Outcome.returnedNull, Outcome.returnedHandle, Outcome.returned]
  · rw [make_of_init_ok env gpl _ _ _ _ _ _ p hr]
    cases gpl
    · simp [Outcome.returnedNull, Outcome.returnedHandle, Outcome.returned]
    · simp [VideoResampler.make, afterInit, Global.init]

/-- Witness for C4 (amended): with the validating example factory, an enabled
build returns a non-null handle for 640x480 from 1280x720, and a disabled
build returns nothing. -/
theorem C4_make_null_iff_factory_null_witness :
    Outcome.returnedHandle
      (IVideoResampler.make exEnv true 640 480 7 1280 720 7 exStart).1 = true ∧
    Outcome.returned
      (IVideoResampler.make exEnv false 640 480 7 1280 720 7 exStart).1 = false :=
  ⟨(C4_make_null_iff_factory_null exEnv true 640 480 7 1280 720 7 exStart).2.1.mpr
      ⟨rfl, rfl, rfl⟩,
   (C4_make_null_iff_factory_null exEnv false 640 480 7 1280 720 7 exStart).2.2 rfl⟩

/-- C5: for every build configuration, every choice of the six arguments and
every process state, `IVideoResampler::make` calls `Global::init` exactly once
and before anything else: the call log grows by one `Global::init` entry,
followed by the single factory call when the build has `VS_ENABLE_GPL` and the
initialisation returned, and by nothing otherwise.  In a build without
`VS_ENABLE_GPL` the call ends in the state the initialisation left, so the
initialisation has happened although the call fails. -/
theorem C5_make_inits_once_first {ι ω φ ρ : Type} (env : Collaborators ι ω φ ρ)
    (gpl : Bool) (outputWidth outputHeight : Int) (outputFmt : φ)
    (inputWidth inputHeight : Int) (inputFmt : φ) (p : Process ι ω φ) :
    (IVideoResampler.make env gpl outputWidth outputHeight outputFmt
        inputWidth inputHeight inputFmt p).2.calls
      = p.calls ++ Call.Global_init ::
          (if gpl && Outcome.returned (env.Global_init p.global).1 then
            [Call.VideoResampler_make outputWidth outputHeight outputFmt
              inputWidth inputHeight inputFmt]
           else []) ∧
    initCount (IVideoResampler.make env gpl outputWidth outputHeight outputFmt
        inputWidth inputHeight inputFmt p).2.calls = initCount p.calls + 1 ∧
    (IVideoResampler.make env false outputWidth outputHeight outputFmt
        inputWidth inputHeight inputFmt p).2 = afterInit env p ∧
    (afterInit env p).global = (env.Global_init p.global).2 := by
  have hcount : ∀ (l : List (Call φ)) (t : List (Call φ)),
      initCount (l ++ Call.Global_init :: t) = initCount l + 1 + initCount t := by
    intro l t
    induction l with
    | nil => simp [initCount]; omega
    | cons c cs ih => cases c <;> simp [initCount, ih]; omega
  have hfalse : (IVideoResampler.make env false outputWidth outputHeight outputFmt
        inputWidth inputHeight inputFmt p).2 = afterInit env p := by
    rcases hr : (env.Global_init p.global).1 with e | u
    · rw [make_of_init_error env false _ _ _ _ _ _ p e hr]
    · rw [make_of_init_ok env false _ _ _ _ _ _ p hr]; rfl
  have hcalls : (IVideoResampler.make env gpl outputWidth outputHeight outputFmt
        inputWidth inputHeight inputFmt p).2.calls
      = p.calls ++ Call.Global_init ::
          (if gpl && Outcome.returned (env.Global_init p.global).1 then
            [Call.VideoResampler_make outputWidth outputHeight outputFmt
              inputWidth inputHeight inputFmt]
           else []) := by
    rcases hr : (env.Global_init p.global).1 with e | u
    · rw [make_of_init_error env gpl _ _ _ _ _ _ p e hr]
      simp [afterInit, Global.init, Outcome.returned]
    · rw [make_of_init_ok env gpl _ _ _ _ _ _ p hr]
      cases gpl <;>
        simp [VideoResampler.make, afterInit, Global.init, Outcome.returned]
  refine ⟨hcalls, ?_, hfalse, rfl⟩
  rw [hcalls, hcount]
  split <;> simp [initCount]

/-- C6: for every `Feature` value, every build configuration and every process
state, `IVideoResampler::isSupported` returns a boolean (it does not throw) and
leaves the whole process state as it found it: the state of `Global`, the rest
of the state and the log of collaborator calls are unchanged, so neither
`Global::init` nor `VideoResampler::make` was called. -/
theorem C6_isSupported_total_and_pure {ι ω φ Feature : Type} (gpl : Bool)
    (f : Feature) (p : Process ι ω φ) :
    Outcome.returned (IVideoResampler.isSupported gpl f p).1 = true ∧
    (∃ b : Bool, IVideoResampler.isSupported gpl f p = (Except.ok b, p)) ∧
    (IVideoResampler.isSupported gpl f p).2 = p ∧
    (IVideoResampler.isSupported gpl f p).2.calls = p.calls := by
  cases gpl
  · exact ⟨rfl, ⟨false, rfl⟩, rfl, rfl⟩
  · exact ⟨rfl, ⟨true, rfl⟩, rfl, rfl⟩

/-- C7: assume `Global::init` is idempotent (invoked again on the state an
earlier invocation left, it returns without throwing and leaves that state as
it is) and, for a build with `VS_ENABLE_GPL`, that the concrete factory does not
write the state owned by `Global`.  Then after any number of
`IVideoResampler::make` calls in sequence, with any arguments, the
initialisation state equals the one after the first call alone, which is the
state the first `Global::init` left.  In a build without `VS_ENABLE_GPL`
whose first initialisation returned, every one of the calls throws the same
not-supported error and the rest of the process state is untouched. -/
theorem C7_repeated_make {ι ω φ ρ : Type} (env : Collaborators ι ω φ ρ)
    (gpl : Bool) (a : MakeArgs φ) (as : List (MakeArgs φ)) (p : Process ι ω φ)
    (hIdem : ∀ g : ι, env.Global_init (env.Global_init g).2
      = (Except.ok (), (env.Global_init g).2))
    (hFrame : gpl = true → ∀ (ow oh : Int) (ofmt : φ) (iw ih : Int) (ifmt : φ)
      (g : ι) (h : ω), (env.VideoResampler_make ow oh ofmt iw ih ifmt g h).2.1 = g) :
    (callInSequence ((a :: as).map (makeWith env gpl)) p).2.global
      = (makeWith env gpl a p).2.global ∧
    (makeWith env gpl a p).2.global = (env.Global_init p.global).2 ∧
    (gpl = false → (env.Global_init p.global).1 = Except.ok () →
      (callInSequence ((a :: as).map (makeWith env gpl)) p).1
        = List.replicate (as.length + 1) (Except.error notSupported) ∧
      (callInSequence ((a :: as).map (makeWith env gpl)) p).2.heap = p.heap) := by
  have h1 := make_global_of_frame env gpl a p hFrame
  have hq : (env.Global_init (makeWith env gpl a p).2.global).2
      = (makeWith env gpl a p).2.global := by
    rw [h1, hIdem]
  refine ⟨?_, h1, ?_⟩
  · simp only [List.map_cons, callInSequence]
    exact callInSequence_global env gpl hFrame as _ hq
  · intro hg hfirst
    subst hg
    have hm : makeWith (ρ := ρ) env false a p
        = (Except.error notSupported, afterInit env p) := by
      unfold makeWith
      rw [make_of_init_ok env false _ _ _ _ _ _ p hfirst]; rfl
    have hq2 : env.Global_init (afterInit env p).global
        = (Except.ok (), (afterInit env p).global) := by
      simp only [afterInit, Global.init]
      exact hIdem _
    have := callInSequence_disabled (ρ := ρ) env as (afterInit env p) hq2
    simp only [List.map_cons, callInSequence, hm, List.replicate_succ]
    exact ⟨by rw [this.1], by rw [this.2]; rfl⟩

/-- Witness for C7: three calls with the example collaborators, in an enabled
build (the example factory leaves the state of `Global` alone) and in a
disabled build (all three calls throw the not-supported error). -/
theorem C7_repeated_make_witness :
    ((callInSequence ([exArgs, exBadArgs, exArgs].map (makeWith exEnv true))
        exStart).2.global = (makeWith exEnv true exArgs exStart).2.global) ∧
    ((exEnv.Global_init exStart.global).1 = Except.ok () ∧
      (callInSequence ([exArgs, exBadArgs, exArgs].map (makeWith exEnv false))
        exStart).1
        = [Except.error notSupported, Except.error notSupported,
           Except.error notSupported]) :=
  ⟨(C7_repeated_make exEnv true exArgs [exBadArgs, exArgs] exStart
      (fun _ => rfl) (fun _ _ _ _ _ _ _ g h => by
        simp only [exEnv, exFactory]; split <;> rfl)).1,
   rfl,
   ((C7_repeated_make exEnv false exArgs [exBadArgs, exArgs] exStart
      (fun _ => rfl) (fun hg => by cases hg)).2.2 rfl rfl).1⟩

/-- C8: the capability query and the factory agree in every build.  Once
`Global::init` has returned, `IVideoResampler::isSupported` answers `false`
exactly when `IVideoResampler::make` ends in its own not-supported branch
(the not-supported error is thrown in the state the initialisation left, no
factory call recorded), and answers `true` exactly when the result of
`IVideoResampler::make` (outcome, process state and call log) is the result of
the call to the concrete factory made in the state the initialisation left. -/
theorem C8_isSupported_agrees_with_make {ι ω φ ρ Feature : Type}
    (env : Collaborators ι ω φ ρ) (gpl : Bool) (f : Feature)
    (outputWidth outputHeight : Int) (outputFmt : φ)
    (inputWidth inputHeight : Int) (inputFmt : φ) (p : Process ι ω φ)
    (hinit : (env.Global_init p.global).1 = Except.ok ()) :
    ((IVideoResampler.isSupported gpl f p).1 = Except.ok false ↔
      IVideoResampler.make env gpl outputWidth outputHeight outputFmt
        inputWidth inputHeight inputFmt p
        = (Except.error notSupported, afterInit env p)) ∧
    ((IVideoResampler.isSupported gpl f p).1 = Except.ok true ↔
      IVideoResampler.make env gpl outputWidth outputHeight outputFmt
        inputWidth inputHeight inputFmt p
        = VideoResampler.make env outputWidth outputHeight outputFmt
            inputWidth inputHeight inputFmt (afterInit env p)) := by
  rw [make_of_init_ok env gpl _ _ _ _ _ _ p hinit]
  cases gpl
  · refine ⟨⟨fun _ => rfl, fun _ => rfl⟩, ⟨fun h => ?_, fun h => ?_⟩⟩
    · simp [IVideoResampler.isSupported, Cpp.ret] at h
    · have hc := congrArg (fun r => r.2.calls.length) h
      simp [VideoResampler.make] at hc
  · refine ⟨⟨fun h => ?_, fun h => ?_⟩, ⟨fun _ => rfl, fun _ => rfl⟩⟩
    · simp [IVideoResampler.isSupported, Cpp.ret] at h
    · have hc := congrArg (fun r => r.2.calls.length) h
      simp [VideoResampler.make] at hc

/-- Witness for C8: the example environment in a disabled build. -/
theorem C8_isSupported_agrees_with_make_witness :
    (exEnv.Global_init exStart.global).1 = Except.ok () ∧
    ((IVideoResampler.isSupported false (0 : Nat) exStart).1 = Except.ok false ↔
      IVideoResampler.make exEnv false 640 480 7 1280 720 7 exStart
        = (Except.error notSupported, afterInit exEnv exStart)) :=
  ⟨rfl, (C8_isSupported_agrees_with_make exEnv false (0 : Nat) 640 480 7 1280 720 7
    exStart rfl).1⟩

end com.xuggle.xuggler
